import Mathlib

/-!
Shallow embedding of the `manus-toolkit` deployment orchestration core
(`src/scripts/manus-deploy-auto.py` and `src/scripts/manus-dns-manager.py`).

External collaborators (the Cloudflare HTTP API, the system DNS resolver,
the HTTP client and the wall clock) are modelled as oracles supplied to the
embedded functions: each provider query is a total function from the issued
request parameters to the response the provider would return, each
resolution / availability probe is indexed by the attempt number at which
the source issues it, and each `datetime.now()` read is a separate time
parameter.  The SQLite `projects` table (one row per unique `name`) is
modelled as a finite map `String → Option ProjectRow`; the autoincrement
surrogate `id` column is never read by the scripts and is omitted.
-/

namespace ManusToolkit

/-- One row of the `projects` table created by `init_database`
(`manus-deploy-auto.py` lines 66-87), keyed externally by `name`.
`dns_propagated` and `site_live` have SQL `DEFAULT 0`; `status` has
`DEFAULT 'pending'`.  Timestamps are abstracted to naturals. -/
structure ProjectRow where
  custom_domain : String
  manus_url : String
  record_id : Option String
  zone_id : Option String
  status : String
  created_at : Nat
  updated_at : Nat
  dns_propagated : Bool
  site_live : Bool
deriving DecidableEq

/-- The Project State Store: the `projects` table as a map from the unique
`name` key to its row. -/
def Store : Type := String → Option ProjectRow

/-- The empty store (freshly initialized database). -/
def emptyStore : Store := fun _ => none

/-- `SELECT * FROM projects WHERE name=?` (point lookup). -/
def getProject (s : Store) (name : String) : Option ProjectRow := s name

/-- Response to a Cloudflare `GET /zones?name=...` query: HTTP status code
and the `result` array of zone identifiers. -/
structure CfZoneResp where
  status_code : Nat
  result : List String
deriving DecidableEq

/-- A DNS record as returned by the Cloudflare records listing: the fields
the scripts read (`id`, `type`, `name`, `content`, `proxied`, `ttl`). -/
structure DnsRecord where
  id : String
  rec_type : String
  name : String
  content : String
  proxied : Bool
  ttl : Nat
deriving DecidableEq

/-- Response to a Cloudflare `GET /zones/{zone}/dns_records` query. -/
structure CfRecListResp where
  status_code : Nat
  result : List DnsRecord
deriving DecidableEq

/-- The parameters of a records listing query: `{"name": ..}` and an
optional `{"type": ..}` filter. -/
structure RecQuery where
  name : String
  rec_type : Option String
deriving DecidableEq

/-- Response to a Cloudflare `POST .../dns_records` creation request, with
the parts of the response the script inspects: the HTTP status code, the
JSON `success` flag, the `result.id` field, and whether the literal
`"already exists"` occurs in the lower-cased response text. -/
structure CfCreateResp where
  status_code : Nat
  success : Bool
  result_id : String
  text_has_already_exists : Bool
deriving DecidableEq

/-- Outcome of one HTTP GET: either a response with a status code, or a
network-level failure (timeout, connection refused, TLS failure, ...),
which the source catches as an exception. -/
inductive HttpResult where
  | response (status_code : Nat)
  | netError
deriving DecidableEq

/-- `get_zone_id` (deploy script lines 90-110): derive the registrable root
as the last two dot-separated labels, query the provider for zones of that
name, and return the first match's id on a 200 response. -/
def rootOf (domain : String) : String :=
  let parts := domain.splitOn "."
  if parts.length ≥ 2 then
    String.intercalate "." (parts.drop (parts.length - 2))
  else domain

/-- `get_zone_id` proper: `zones` is the provider oracle mapping the queried
zone name to its response. -/
def get_zone_id (zones : String → CfZoneResp) (domain : String) : Option String :=
  let resp := zones (rootOf domain)
  if resp.status_code = 200 then
    match resp.result with
    | z :: _ => some z
    | [] => none
  else none

/-- `extract_manus_target` (lines 113-119): a URL starting with `"http"` is
parsed and its network location taken; anything else is returned verbatim.
`netlocOf` models `urlparse(...).netloc`: the text between the first `"//"`
and the next path/query/fragment delimiter. -/
def netlocOf (url : String) : String :=
  match url.splitOn "//" with
  | _ :: rest :: _ =>
      (((rest.splitOn "/").headD "").splitOn "?").headD ""
  | _ => ""

def extract_manus_target (manus_url : String) : String :=
  if manus_url.startsWith "http" then netlocOf manus_url else manus_url

/-- `create_cname_record` (lines 122-157).  The creation `POST` response is
`cr`; `records` is the provider oracle for the conflict-recovery listing
query, which the source issues with `{"name": subdomain, "type": "CNAME"}`.
Accepted creation (status 200/201 and `success`) returns the new id; a
rejection whose text contains `"already exists"` falls back to the listing
and returns the first returned record's id; anything else returns `none`. -/
def create_cname_record (cr : CfCreateResp) (records : RecQuery → CfRecListResp)
    (subdomain : String) : Option String :=
  if (cr.status_code = 200 ∨ cr.status_code = 201) ∧ cr.success then
    some cr.result_id
  else if cr.text_has_already_exists then
    let lr := records ⟨subdomain, some "CNAME"⟩
    if lr.status_code = 200 then
      match lr.result with
      | r :: _ => some r.id
      | [] => none
    else none
  else none

/-- `check_dns_propagation` (lines 160-167): `socket.gethostbyname` is
modelled as the oracle's `Option` address; any address means propagated,
`gaierror` (`none`) means not.  The `expected_target` argument is accepted
and ignored, exactly as in the source. -/
def check_dns_propagation (resolved : Option String) (_expected_target : String) : Bool :=
  resolved.isSome

/-- `check_site_availability` (lines 170-177): a response is live iff its
status code is strictly below 400; any caught network-level exception
yields `(false, 0)`.  The embedding is a total function: no input raises. -/
def check_site_availability : HttpResult → Bool × Nat
  | .response code => (decide (code < 400), code)
  | .netError => (false, 0)

/-- Index of the first attempt `i` (counting from `start`) within `fuel`
further attempts for which `probe i` holds: the shape of the two bounded
`for ... break` polling loops in `deploy_project` (lines 257-274, 282-299). -/
def firstSuccessFrom (probe : Nat → Bool) (start : Nat) : Nat → Option Nat
  | 0 => none
  | fuel + 1 => if probe start then some start else firstSuccessFrom probe (start + 1) fuel

/-- First successful attempt index among attempts `0, ..., fuel - 1`. -/
def firstSuccess (probe : Nat → Bool) (fuel : Nat) : Option Nat :=
  firstSuccessFrom probe 0 fuel

/-- The `INSERT OR REPLACE INTO projects (name, custom_domain, manus_url,
record_id, zone_id, status, created_at, updated_at) VALUES
(?, ?, ?, ?, ?, 'deployed', ?, ?)` of deploy step 3 (lines 229-243).
SQLite insert-or-replace deletes any conflicting row and inserts a fresh
one, so the columns absent from the column list — `dns_propagated`,
`site_live` — take their declared defaults (0), not the old row's values. -/
def upsertProject (s : Store) (name custom_domain manus_url : String)
    (record_id zone_id : String) (now : Nat) : Store :=
  fun n =>
    if n = name then
      some ⟨custom_domain, manus_url, some record_id, some zone_id,
            "deployed", now, now, false, false⟩
    else s n

/-- `UPDATE projects SET dns_propagated=1, updated_at=? WHERE name=?`
(lines 263-270). -/
def updateDnsPropagated (s : Store) (name : String) (now : Nat) : Store :=
  fun n =>
    if n = name then
      (s n).map (fun r => { r with dns_propagated := true, updated_at := now })
    else s n

/-- `UPDATE projects SET site_live=1, status='live', updated_at=? WHERE
name=?` (lines 288-295). -/
def updateSiteLive (s : Store) (name : String) (now : Nat) : Store :=
  fun n =>
    if n = name then
      (s n).map (fun r => { r with site_live := true, status := "live", updated_at := now })
    else s n

/-- `DELETE FROM projects WHERE name=?` (line 413). -/
def deleteProject (s : Store) (name : String) : Store :=
  fun n => if n = name then none else s n

/-- Root-domain derivation inside `deploy_project` (lines 193-199): with
three or more labels, everything after the first label; with two, the last
two labels; otherwise the domain itself. -/
def deployRootDomain (custom_domain : String) : String :=
  let parts := custom_domain.splitOn "."
  if parts.length ≥ 3 then String.intercalate "." (parts.drop 1)
  else if parts.length ≥ 2 then String.intercalate "." (parts.drop (parts.length - 2))
  else custom_domain

/-- The environment of one `deploy_project` run: provider oracles, the
resolver and HTTP prober indexed by attempt number, and the three
`datetime.now()` reads (persist step, DNS-propagated update, site-live
update). -/
structure DeployEnv where
  zones : String → CfZoneResp
  createResp : CfCreateResp
  records : RecQuery → CfRecListResp
  resolver : Nat → Option String
  http : Nat → HttpResult
  t0 : Nat
  t1 : Nat
  t2 : Nat

/-- Result of a `deploy_project` run: the boolean the function returns, the
store after the run, and how many DNS-resolution / availability attempts
the two polling loops issued. -/
structure DeployResult where
  ok : Bool
  store : Store
  dnsAttempts : Nat
  siteAttempts : Nat

/-- `deploy_project` (lines 180-314).  Step 1 resolves the zone (fatal on
`none`, nothing persisted); step 2 upserts the CNAME record (fatal on
`none`, nothing persisted); step 3 insert-or-replaces the Project row with
status `deployed`; step 4 polls DNS resolution up to 30 times, setting
`dns_propagated=1` on the first success and merely warning on exhaustion;
step 5 polls site availability up to 5 times, setting `site_live=1,
status='live'` on the first success; the run then reports success. -/
def deploy_project (env : DeployEnv) (s : Store)
    (project_name custom_domain manus_url : String) : DeployResult :=
  let manus_target := extract_manus_target manus_url
  match get_zone_id env.zones (deployRootDomain custom_domain) with
  | none => ⟨false, s, 0, 0⟩
  | some zid =>
    match create_cname_record env.createResp env.records custom_domain with
    | none => ⟨false, s, 0, 0⟩
    | some rid =>
      let s1 := upsertProject s project_name custom_domain manus_url rid zid env.t0
      let dnsProbe := fun i => check_dns_propagation (env.resolver i) manus_target
      let dnsHit := firstSuccess dnsProbe 30
      let s2 := match dnsHit with
        | some _ => updateDnsPropagated s1 project_name env.t1
        | none => s1
      let dnsAttempts := match dnsHit with
        | some k => k + 1
        | none => 30
      let siteProbe := fun a => (check_site_availability (env.http a)).1
      let siteHit := firstSuccess siteProbe 5
      let s3 := match siteHit with
        | some _ => updateSiteLive s2 project_name env.t2
        | none => s2
      let siteAttempts := match siteHit with
        | some a => a + 1
        | none => 5
      ⟨true, s3, dnsAttempts, siteAttempts⟩

/-- What `get_project_status` (lines 317-350) observes and renders: whether
the row was found, the single-shot probe outcomes, and how many DNS /
HTTP probes were issued. -/
structure StatusReport where
  found : Bool
  dns_ok : Bool
  site_ok : Bool
  http_status : Nat
  dnsProbes : Nat
  siteProbes : Nat
deriving DecidableEq

/-- `get_project_status`: reload the row (report not-found and stop if
absent), issue exactly one DNS-resolution probe and one availability probe,
and render the result.  The function performs no SQL write: the store it
leaves behind is returned alongside the report. -/
def get_project_status (s : Store) (name : String)
    (resolved : Option String) (http : HttpResult) : StatusReport × Store :=
  match s name with
  | none => (⟨false, false, false, 0, 0, 0⟩, s)
  | some row =>
    let dns_ok := check_dns_propagation resolved ""
    let site := check_site_availability http
    let _ := row.custom_domain
    (⟨true, dns_ok, site.1, site.2, 1, 1⟩, s)

/-- Python truthiness of an optional TEXT column: `NULL` and the empty
string are falsy (`if record_id and zone_id:`, line 400). -/
def truthyStr : Option String → Bool
  | none => false
  | some s => !(s = "")

/-- Outcome of `remove_project`. -/
inductive RemoveOutcome where
  | notFound
  | removed
deriving DecidableEq

/-- Result of `remove_project`: the reported outcome, the store left
behind, whether an upstream `DELETE .../dns_records/{id}` call was issued,
and whether that call (if issued) returned 200. -/
structure RemoveResult where
  outcome : RemoveOutcome
  store : Store
  upstreamCallIssued : Bool
  upstreamDeleteOk : Bool

/-- `remove_project` (lines 383-417): look up the row (report not-found and
stop if absent); if both `record_id` and `zone_id` are truthy, issue the
upstream record deletion (a non-200 response is only a warning); then
unconditionally delete the local row. `deleteStatus` is the provider's
status code for that deletion, consulted only when the call is issued. -/
def remove_project (s : Store) (project_name : String) (deleteStatus : Nat) : RemoveResult :=
  match s project_name with
  | none => ⟨.notFound, s, false, false⟩
  | some row =>
    let callIssued := truthyStr row.record_id && truthyStr row.zone_id
    let deleteOk := callIssued && decide (deleteStatus = 200)
    ⟨.removed, deleteProject s project_name, callIssued, deleteOk⟩

/-! ### `manus-dns-manager.py` (Level 1 record management) -/

namespace DnsManager

/-- `get_zone_id` of the DNS manager (lines 64-77): unlike the deploy
script's variant it queries the provider with the domain exactly as given,
with no root-label extraction. -/
def get_zone_id (zones : String → CfZoneResp) (domain : String) : Option String :=
  let resp := zones domain
  if resp.status_code = 200 then
    match resp.result with
    | z :: _ => some z
    | [] => none
  else none

/-- Record-name normalization shared by `create_record`, `update_record`
and `delete_record` (e.g. lines 233-238): `"@"` denotes the zone apex; a
name not already ending in the domain is suffixed with it. -/
def fullRecordName (name domain : String) : String :=
  if name = "@" then domain
  else if !(name.endsWith domain) then name ++ "." ++ domain
  else name

/-- Status code and JSON `success` flag of a Cloudflare write (`PUT` or
`DELETE`) response. -/
structure CfWriteResp where
  status_code : Nat
  success : Bool
deriving DecidableEq

/-- The distinct outcomes `update_record` / `delete_record` report on their
console: zone lookup failed, the record-finding query failed (provider
error), no record matched (not found), the write itself failed, or
success. -/
inductive WriteOutcome where
  | zoneNotFound
  | findError
  | notFound
  | writeError
  | success
deriving DecidableEq

/-- Result of an `update_record` / `delete_record` run: the boolean the
function returns, the reported outcome, the records-listing query issued
(if any), and the id of the record the write call targeted (if any). -/
structure DnsWriteResult where
  ok : Bool
  outcome : WriteOutcome
  queryIssued : Option RecQuery
  writeIssuedOn : Option String
deriving DecidableEq

/-- `update_record` (lines 225-293): resolve the zone, normalize the name,
list records filtered by `{"name": full_name}` plus the upper-cased type
when given, fail distinctly when the listing errors or matches nothing,
and otherwise `PUT` new content onto the first matching record. -/
def update_record (zones : String → CfZoneResp) (records : RecQuery → CfRecListResp)
    (putResp : CfWriteResp) (domain name _content : String)
    (rec_type : Option String) : DnsWriteResult :=
  match get_zone_id zones domain with
  | none => ⟨false, .zoneNotFound, none, none⟩
  | some _ =>
    let full_name := fullRecordName name domain
    let q : RecQuery := ⟨full_name, rec_type.map String.toUpper⟩
    let lr := records q
    if lr.status_code ≠ 200 then ⟨false, .findError, some q, none⟩
    else
      match lr.result with
      | [] => ⟨false, .notFound, some q, none⟩
      | r :: _ =>
        if putResp.status_code = 200 ∧ putResp.success then
          ⟨true, .success, some q, some r.id⟩
        else ⟨false, .writeError, some q, some r.id⟩

/-- `delete_record` (lines 296-355): same read-then-write shape as
`update_record`, issuing a `DELETE` on the first matching record. -/
def delete_record (zones : String → CfZoneResp) (records : RecQuery → CfRecListResp)
    (delResp : CfWriteResp) (domain name : String)
    (rec_type : Option String) : DnsWriteResult :=
  match get_zone_id zones domain with
  | none => ⟨false, .zoneNotFound, none, none⟩
  | some _ =>
    let full_name := fullRecordName name domain
    let q : RecQuery := ⟨full_name, rec_type.map String.toUpper⟩
    let lr := records q
    if lr.status_code ≠ 200 then ⟨false, .findError, some q, none⟩
    else
      match lr.result with
      | [] => ⟨false, .notFound, some q, none⟩
      | r :: _ =>
        if delResp.status_code = 200 ∧ delResp.success then
          ⟨true, .success, some q, some r.id⟩
        else ⟨false, .writeError, some q, some r.id⟩

end DnsManager

/-! ### Polling-loop lemmas -/

theorem firstSuccessFrom_eq_none_iff (p : Nat → Bool) :
    ∀ (fuel start : Nat),
      firstSuccessFrom p start fuel = none ↔
        ∀ j, start ≤ j → j < start + fuel → p j = false := by
  intro fuel
  induction fuel with
  | zero =>
    intro start
    constructor
    · intro _ j h1 h2
      omega
    · intro _
      rfl
  | succ n ih =>
    intro start
    constructor
    · intro h j h1 h2
      by_cases hp : p start = true
      · simp [firstSuccessFrom, hp] at h
      · have hps : p start = false := Bool.eq_false_iff.mpr hp
        simp only [firstSuccessFrom, hps, Bool.false_eq_true, if_false] at h
        rcases Nat.eq_or_lt_of_le h1 with heq | hlt
        · rw [← heq]
          exact hps
        · exact (ih (start + 1)).mp h j hlt (by omega)
    · intro h
      have hps : p start = false := h start le_rfl (by omega)
      simp only [firstSuccessFrom, hps, Bool.false_eq_true, if_false]
      exact (ih (start + 1)).mpr (fun j h1 h2 => h j (by omega) (by omega))

theorem firstSuccessFrom_eq_some (p : Nat → Bool) :
    ∀ (fuel start k : Nat), start ≤ k → k < start + fuel → p k = true →
      (∀ j, start ≤ j → j < k → p j = false) →
      firstSuccessFrom p start fuel = some k := by
  intro fuel
  induction fuel with
  | zero =>
    intro start k h1 h2 _ _
    omega
  | succ n ih =>
    intro start k h1 h2 hk hmin
    by_cases hs : start = k
    · subst hs
      simp [firstSuccessFrom, hk]
    · have hps : p start = false := hmin start le_rfl (by omega)
      simp only [firstSuccessFrom, hps, Bool.false_eq_true, if_false]
      exact ih (start + 1) k (by omega) (by omega) hk
        (fun j hj1 hj2 => hmin j (by omega) hj2)

theorem firstSuccess_eq_some (p : Nat → Bool) (fuel k : Nat)
    (h2 : k < fuel) (hk : p k = true) (hmin : ∀ j, j < k → p j = false) :
    firstSuccess p fuel = some k :=
  firstSuccessFrom_eq_some p fuel 0 k (Nat.zero_le k) (by omega) hk
    (fun j _ hj => hmin j hj)

theorem firstSuccess_eq_none (p : Nat → Bool) (fuel : Nat)
    (h : ∀ i, i < fuel → p i = false) :
    firstSuccess p fuel = none :=
  (firstSuccessFrom_eq_none_iff p fuel 0).mpr (fun j _ hj => h j (by omega))

/-! ### Claims -/

/-- C1: `create_cname_record` returns the new record's id when the
provider accepts the creation; on a rejection whose response text contains
`"already exists"` it queries the existing records matching the hostname
(`name` = the requested subdomain, `type` = CNAME) and returns the first
one's id; on any other rejection it returns `none`. -/
theorem create_cname_record_upsert (cr : CfCreateResp)
    (records : RecQuery → CfRecListResp) (subdomain : String) :
    (((cr.status_code = 200 ∨ cr.status_code = 201) ∧ cr.success = true) →
      create_cname_record cr records subdomain = some cr.result_id) ∧
    (¬((cr.status_code = 200 ∨ cr.status_code = 201) ∧ cr.success = true) →
      cr.text_has_already_exists = true →
      ∀ r rest, (records ⟨subdomain, some "CNAME"⟩).status_code = 200 →
        (records ⟨subdomain, some "CNAME"⟩).result = r :: rest →
        create_cname_record cr records subdomain = some r.id) ∧
    (¬((cr.status_code = 200 ∨ cr.status_code = 201) ∧ cr.success = true) →
      cr.text_has_already_exists = false →
      create_cname_record cr records subdomain = none) := by
  refine ⟨?_, ?_, ?_⟩
  · intro h
    simp [create_cname_record, h]
  · intro hna hx r rest h200 hres
    simp [create_cname_record, hna, hx, h200, hres]
  · intro hna hx
    simp [create_cname_record, hna, hx]

/-- Witness for C1: each branch of the upsert contract exercised at a
concrete response (accepted creation; conflict recovered by lookup; other
rejection). -/
theorem create_cname_record_upsert_witness :
    create_cname_record ⟨200, true, "newid", false⟩ (fun _ => ⟨200, []⟩)
      "app.example.com" = some "newid" ∧
    create_cname_record ⟨400, false, "", true⟩
      (fun _ => ⟨200, [⟨"rid1", "CNAME", "app.example.com", "t.example.net", true, 1⟩]⟩)
      "app.example.com" = some "rid1" ∧
    create_cname_record ⟨500, false, "", false⟩ (fun _ => ⟨200, []⟩)
      "app.example.com" = none := by
  refine ⟨?_, ?_, ?_⟩
  · exact (create_cname_record_upsert ⟨200, true, "newid", false⟩ (fun _ => ⟨200, []⟩)
      "app.example.com").1 (by decide)
  · exact (create_cname_record_upsert ⟨400, false, "", true⟩
      (fun _ => ⟨200, [⟨"rid1", "CNAME", "app.example.com", "t.example.net", true, 1⟩]⟩)
      "app.example.com").2.1 (by decide) rfl
      ⟨"rid1", "CNAME", "app.example.com", "t.example.net", true, 1⟩ [] rfl rfl
  · exact (create_cname_record_upsert ⟨500, false, "", false⟩ (fun _ => ⟨200, []⟩)
      "app.example.com").2.2 (by decide) rfl

/-- C3: `check_site_availability` classifies a response live exactly when
its status code is below 400, and classifies every network-level failure
not-live with reported code 0; being a total function, it raises nothing. -/
theorem check_site_availability_classification (code : Nat) :
    ((check_site_availability (.response code)).1 = true ↔ code < 400) ∧
    (check_site_availability (.response code)).2 = code ∧
    check_site_availability .netError = (false, 0) := by
  refine ⟨?_, rfl, rfl⟩
  simp [check_site_availability]

/-- C7: insert-or-replace round-trip — reading back after `upsertProject`
yields exactly the row written, with `status = "deployed"`, both
timestamps equal to the write time, and the unsupplied `dns_propagated` /
`site_live` columns at their declared default `false`, independently of
whatever row (if any) the store previously held under that name. -/
theorem upsertProject_roundtrip (s : Store) (name cd mu rid zid : String) (t : Nat) :
    getProject (upsertProject s name cd mu rid zid t) name =
      some ⟨cd, mu, some rid, some zid, "deployed", t, t, false, false⟩ := by
  simp [getProject, upsertProject]

/-- C8 (amended): `get_project_status` never writes — the store after the
query is the store before it, every stored row included — and it issues
exactly one DNS probe and one HTTP probe when the row exists, and none
when the name has no stored row. -/
theorem get_project_status_nonmutating (s : Store) (name : String)
    (resolved : Option String) (http : HttpResult) :
    (get_project_status s name resolved http).2 = s ∧
    (get_project_status s name resolved http).1.dnsProbes =
      (if (s name).isSome then 1 else 0) ∧
    (get_project_status s name resolved http).1.siteProbes =
      (if (s name).isSome then 1 else 0) := by
  unfold get_project_status
  cases h : s name <;> simp [h]

/-- C5: if zone resolution yields no zone, or the record upsert yields no
identifier, `deploy_project` aborts with failure before the persistence
step: the store it returns is the input store, unchanged. -/
theorem deploy_fatal_abort_atomic (env : DeployEnv) (s : Store) (pn cd mu : String) :
    (get_zone_id env.zones (deployRootDomain cd) = none →
      (deploy_project env s pn cd mu).store = s ∧
      (deploy_project env s pn cd mu).ok = false) ∧
    (create_cname_record env.createResp env.records cd = none →
      (deploy_project env s pn cd mu).store = s ∧
      (deploy_project env s pn cd mu).ok = false) := by
  constructor
  · intro h
    unfold deploy_project
    rw [h]
    exact ⟨rfl, rfl⟩
  · intro h
    unfold deploy_project
    cases hz : get_zone_id env.zones (deployRootDomain cd)
    · exact ⟨rfl, rfl⟩
    · rw [h]
      exact ⟨rfl, rfl⟩

/-- Witness for C5: a run whose zone query 404s, and a run whose creation
is rejected without a conflict, both leave the empty store empty and
report failure. -/
theorem deploy_fatal_abort_atomic_witness :
    ((deploy_project ⟨fun _ => ⟨404, []⟩, ⟨200, true, "r1", false⟩, fun _ => ⟨200, []⟩,
        fun _ => none, fun _ => .netError, 0, 0, 0⟩
      emptyStore "p1" "app.example.com" "up.example.net").store = emptyStore ∧
     (deploy_project ⟨fun _ => ⟨404, []⟩, ⟨200, true, "r1", false⟩, fun _ => ⟨200, []⟩,
        fun _ => none, fun _ => .netError, 0, 0, 0⟩
      emptyStore "p1" "app.example.com" "up.example.net").ok = false) ∧
    ((deploy_project ⟨fun _ => ⟨200, ["z1"]⟩, ⟨500, false, "", false⟩, fun _ => ⟨200, []⟩,
        fun _ => none, fun _ => .netError, 0, 0, 0⟩
      emptyStore "p1" "app.example.com" "up.example.net").store = emptyStore ∧
     (deploy_project ⟨fun _ => ⟨200, ["z1"]⟩, ⟨500, false, "", false⟩, fun _ => ⟨200, []⟩,
        fun _ => none, fun _ => .netError, 0, 0, 0⟩
      emptyStore "p1" "app.example.com" "up.example.net").ok = false) := by
  constructor
  · exact (deploy_fatal_abort_atomic ⟨fun _ => ⟨404, []⟩, ⟨200, true, "r1", false⟩,
      fun _ => ⟨200, []⟩, fun _ => none, fun _ => .netError, 0, 0, 0⟩
      emptyStore "p1" "app.example.com" "up.example.net").1 rfl
  · exact (deploy_fatal_abort_atomic ⟨fun _ => ⟨200, ["z1"]⟩, ⟨500, false, "", false⟩,
      fun _ => ⟨200, []⟩, fun _ => none, fun _ => .netError, 0, 0, 0⟩
      emptyStore "p1" "app.example.com" "up.example.net").2 rfl

/-- C6: `remove_project` on a name with no stored row reports not-found,
issues no provider call and leaves the store unchanged; on a stored row
whose `record_id` or `zone_id` is absent it deletes the local row (other
rows untouched) without issuing any upstream deletion. -/
theorem remove_project_spec (s : Store) (name : String) (dstat : Nat) :
    (s name = none →
      (remove_project s name dstat).outcome = .notFound ∧
      (remove_project s name dstat).store = s ∧
      (remove_project s name dstat).upstreamCallIssued = false) ∧
    (∀ row, s name = some row → (row.record_id = none ∨ row.zone_id = none) →
      (remove_project s name dstat).outcome = .removed ∧
      (remove_project s name dstat).store name = none ∧
      (∀ n, n ≠ name → (remove_project s name dstat).store n = s n) ∧
      (remove_project s name dstat).upstreamCallIssued = false) := by
  constructor
  · intro h
    simp [remove_project, h]
  · intro row hrow habs
    have htr : (truthyStr row.record_id && truthyStr row.zone_id) = false := by
      rcases habs with h | h
      · rw [h]
        simp [truthyStr]
      · rw [h]
        simp [truthyStr]
    unfold remove_project
    rw [hrow]
    exact ⟨rfl, by simp [deleteProject], fun n hn => by simp [deleteProject, hn], htr⟩

/-- Witness for C6: removing a ghost name from a one-row store, and
removing a stored project whose identifiers are absent. -/
theorem remove_project_spec_witness :
    (remove_project
        (fun n => if n = "p1" then
          some ⟨"a.example.com", "m.example.net", none, none, "deployed", 0, 0, false, false⟩
        else none) "ghost" 200).outcome = RemoveOutcome.notFound ∧
    (remove_project
        (fun n => if n = "p1" then
          some ⟨"a.example.com", "m.example.net", none, none, "deployed", 0, 0, false, false⟩
        else none) "ghost" 200).upstreamCallIssued = false ∧
    (remove_project
        (fun n => if n = "p1" then
          some ⟨"a.example.com", "m.example.net", none, none, "deployed", 0, 0, false, false⟩
        else none) "p1" 200).store "p1" = none ∧
    (remove_project
        (fun n => if n = "p1" then
          some ⟨"a.example.com", "m.example.net", none, none, "deployed", 0, 0, false, false⟩
        else none) "p1" 200).upstreamCallIssued = false := by
  have h1 := (remove_project_spec
    (fun n => if n = "p1" then
      some ⟨"a.example.com", "m.example.net", none, none, "deployed", 0, 0, false, false⟩
    else none) "ghost" 200).1 (by decide)
  have h2 := (remove_project_spec
    (fun n => if n = "p1" then
      some ⟨"a.example.com", "m.example.net", none, none, "deployed", 0, 0, false, false⟩
    else none) "p1" 200).2
    ⟨"a.example.com", "m.example.net", none, none, "deployed", 0, 0, false, false⟩
    (by decide) (Or.inl rfl)
  exact ⟨h1.1, h1.2.2, h2.2.1, h2.2.2.2⟩

/-- Counterexample for C8 as stated: for a project name with no stored row
(`"ghost"` in the empty store) `get_project_status` returns before probing,
so it does not re-probe DNS resolution once nor HTTP availability once. -/
theorem get_project_status_ghost_probes_counterexample :
    (get_project_status emptyStore "ghost" none HttpResult.netError).1.dnsProbes = 0 ∧
    ¬ (get_project_status emptyStore "ghost" none HttpResult.netError).1.dnsProbes = 1 ∧
    (get_project_status emptyStore "ghost" none HttpResult.netError).1.siteProbes = 0 ∧
    ¬ (get_project_status emptyStore "ghost" none HttpResult.netError).1.siteProbes = 1 := by
  decide

/-- C9: `update_record` and `delete_record` are read-then-write: with the
zone resolved, each issues a records-listing query for the normalized name
(upper-cased type included when given); an empty 200 listing is reported
as not-found with no write issued; a non-200 listing is the distinct
provider-error outcome, again with no write; a non-empty listing makes the
write target exactly the first returned record. -/
theorem dns_write_read_then_write (zones : String → CfZoneResp)
    (records : RecQuery → CfRecListResp) (w : DnsManager.CfWriteResp)
    (domain name content : String) (rtype : Option String)
    (zid : String) (hz : DnsManager.get_zone_id zones domain = some zid) :
    (DnsManager.update_record zones records w domain name content rtype).queryIssued =
      some ⟨DnsManager.fullRecordName name domain, rtype.map String.toUpper⟩ ∧
    (DnsManager.delete_record zones records w domain name rtype).queryIssued =
      some ⟨DnsManager.fullRecordName name domain, rtype.map String.toUpper⟩ ∧
    ((records ⟨DnsManager.fullRecordName name domain, rtype.map String.toUpper⟩).status_code = 200 →
      (records ⟨DnsManager.fullRecordName name domain, rtype.map String.toUpper⟩).result = [] →
      (DnsManager.update_record zones records w domain name content rtype).outcome =
        DnsManager.WriteOutcome.notFound ∧
      (DnsManager.update_record zones records w domain name content rtype).writeIssuedOn = none ∧
      (DnsManager.delete_record zones records w domain name rtype).outcome =
        DnsManager.WriteOutcome.notFound ∧
      (DnsManager.delete_record zones records w domain name rtype).writeIssuedOn = none) ∧
    ((records ⟨DnsManager.fullRecordName name domain, rtype.map String.toUpper⟩).status_code ≠ 200 →
      (DnsManager.update_record zones records w domain name content rtype).outcome =
        DnsManager.WriteOutcome.findError ∧
      (DnsManager.update_record zones records w domain name content rtype).writeIssuedOn = none ∧
      (DnsManager.delete_record zones records w domain name rtype).outcome =
        DnsManager.WriteOutcome.findError ∧
      (DnsManager.delete_record zones records w domain name rtype).writeIssuedOn = none) ∧
    (∀ r rest,
      (records ⟨DnsManager.fullRecordName name domain, rtype.map String.toUpper⟩).status_code = 200 →
      (records ⟨DnsManager.fullRecordName name domain, rtype.map String.toUpper⟩).result = r :: rest →
      (DnsManager.update_record zones records w domain name content rtype).writeIssuedOn = some r.id ∧
      (DnsManager.delete_record zones records w domain name rtype).writeIssuedOn = some r.id) ∧
    DnsManager.WriteOutcome.notFound ≠ DnsManager.WriteOutcome.findError := by
  simp only [DnsManager.update_record, DnsManager.delete_record, hz]
  set lr := records ⟨DnsManager.fullRecordName name domain, rtype.map String.toUpper⟩ with hlr
  by_cases hsc : lr.status_code = 200
  · cases hres : lr.result with
    | nil =>
      simp [hsc, hres]
    | cons r rest =>
      simp only [hsc, hres]
      refine ⟨?_, ?_, ?_, ?_, ?_, by decide⟩
      · split
        · rfl
        · split <;> rfl
      · split
        · rfl
        · split <;> rfl
      · intro _ hfalse
        simp at hfalse
      · intro hne
        exact absurd rfl hne
      · intro r' rest' _ hcons
        obtain ⟨rfl, rfl⟩ := by simpa using hcons
        constructor
        · simp only [ne_eq, hsc, not_true_eq_false, if_false]
          split <;> rfl
        · simp only [ne_eq, hsc, not_true_eq_false, if_false]
          split <;> rfl
  · simp [hsc]

/-- Witness for C9: against a concrete zone, an empty 200 listing yields
not-found with no write, a 500 listing yields the distinct provider-error
outcome with no write, and a one-record listing directs the write at that
record; the issued query carries the normalized name. -/
theorem dns_write_read_then_write_witness :
    (DnsManager.update_record (fun _ => ⟨200, ["z9"]⟩) (fun _ => ⟨200, []⟩) ⟨200, true⟩
      "example.com" "app" "new.example.net" none).outcome = DnsManager.WriteOutcome.notFound ∧
    (DnsManager.delete_record (fun _ => ⟨200, ["z9"]⟩) (fun _ => ⟨200, []⟩) ⟨200, true⟩
      "example.com" "app" none).writeIssuedOn = none ∧
    (DnsManager.update_record (fun _ => ⟨200, ["z9"]⟩) (fun _ => ⟨500, []⟩) ⟨200, true⟩
      "example.com" "app" "new.example.net" none).outcome = DnsManager.WriteOutcome.findError ∧
    (DnsManager.delete_record (fun _ => ⟨200, ["z9"]⟩) (fun _ => ⟨500, []⟩) ⟨200, true⟩
      "example.com" "app" none).writeIssuedOn = none ∧
    (DnsManager.update_record (fun _ => ⟨200, ["z9"]⟩)
      (fun _ => ⟨200, [⟨"rid9", "CNAME", "app.example.com", "old.example.net", false, 1⟩]⟩)
      ⟨200, true⟩ "example.com" "app" "new.example.net" none).writeIssuedOn = some "rid9" ∧
    (DnsManager.delete_record (fun _ => ⟨200, ["z9"]⟩)
      (fun _ => ⟨200, [⟨"rid9", "CNAME", "app.example.com", "old.example.net", false, 1⟩]⟩)
      ⟨200, true⟩ "example.com" "app" none).writeIssuedOn = some "rid9" ∧
    (DnsManager.update_record (fun _ => ⟨200, ["z9"]⟩) (fun _ => ⟨200, []⟩) ⟨200, true⟩
      "example.com" "app" "new.example.net" none).queryIssued =
      some ⟨"app.example.com", none⟩ := by
  have hA := dns_write_read_then_write (fun _ => ⟨200, ["z9"]⟩) (fun _ => ⟨200, []⟩)
    ⟨200, true⟩ "example.com" "app" "new.example.net" none "z9" (by decide)
  have hB := dns_write_read_then_write (fun _ => ⟨200, ["z9"]⟩) (fun _ => ⟨500, []⟩)
    ⟨200, true⟩ "example.com" "app" "new.example.net" none "z9" (by decide)
  have hC := dns_write_read_then_write (fun _ => ⟨200, ["z9"]⟩)
    (fun _ => ⟨200, [⟨"rid9", "CNAME", "app.example.com", "old.example.net", false, 1⟩]⟩)
    ⟨200, true⟩ "example.com" "app" "new.example.net" none "z9" (by decide)
  have hAn := hA.2.2.1 rfl rfl
  have hBn := hB.2.2.2.1 (by decide)
  have hCn := hC.2.2.2.2.1
    ⟨"rid9", "CNAME", "app.example.com", "old.example.net", false, 1⟩ [] rfl rfl
  refine ⟨hAn.1, hAn.2.2.2, hBn.1, hBn.2.2.2, hCn.1, hCn.2, ?_⟩
  have := hA.1
  simpa using this

/-- The DNS probe the deploy loop runs at attempt index `i` (line 258):
`check_dns_propagation(custom_domain, manus_target)` with the resolver
outcome supplied by the environment. -/
def deployDnsProbe (env : DeployEnv) (manus_url : String) (i : Nat) : Bool :=
  check_dns_propagation (env.resolver i) (extract_manus_target manus_url)

/-- C2: in a deploy run that reaches the monitoring step, if the first
successful resolution is attempt `k` (1-based, `k ≤ 30`) the loop stops
after exactly `k` attempts and the stored row has `dns_propagated = true`;
if none of the 30 attempts succeeds, `dns_propagated` stays `false` and
the run still proceeds to the availability check (at least one site probe)
and reports success rather than aborting. -/
theorem deploy_dns_monitoring (env : DeployEnv) (s : Store) (pn cd mu : String)
    (zid rid : String)
    (hz : get_zone_id env.zones (deployRootDomain cd) = some zid)
    (hr : create_cname_record env.createResp env.records cd = some rid) :
    (∀ k, 1 ≤ k → k ≤ 30 → deployDnsProbe env mu (k - 1) = true →
      (∀ j, j + 1 < k → deployDnsProbe env mu j = false) →
      (deploy_project env s pn cd mu).dnsAttempts = k ∧
      ((deploy_project env s pn cd mu).store pn).map ProjectRow.dns_propagated = some true) ∧
    ((∀ i, i < 30 → deployDnsProbe env mu i = false) →
      ((deploy_project env s pn cd mu).store pn).map ProjectRow.dns_propagated = some false ∧
      (deploy_project env s pn cd mu).ok = true ∧
      1 ≤ (deploy_project env s pn cd mu).siteAttempts) := by
  constructor
  · intro k hk1 hk30 hk hmin
    have hfs : firstSuccess
        (fun i => check_dns_propagation (env.resolver i) (extract_manus_target mu)) 30 =
        some (k - 1) := by
      refine firstSuccess_eq_some _ 30 (k - 1) (by omega) hk ?_
      intro j hj
      exact hmin j (by omega)
    unfold deploy_project
    rw [hz, hr]
    simp only [hfs]
    constructor
    · omega
    · cases hsite : firstSuccess
        (fun a => (check_site_availability (env.http a)).1) 5 with
      | none =>
        simp [updateDnsPropagated, upsertProject]
      | some a =>
        simp [updateSiteLive, updateDnsPropagated, upsertProject]
  · intro hnone
    have hfs : firstSuccess
        (fun i => check_dns_propagation (env.resolver i) (extract_manus_target mu)) 30 =
        none := firstSuccess_eq_none _ 30 hnone
    unfold deploy_project
    rw [hz, hr]
    simp only [hfs]
    refine ⟨?_, ?_, ?_⟩
    · cases hsite : firstSuccess
        (fun a => (check_site_availability (env.http a)).1) 5 with
      | none =>
        simp [upsertProject]
      | some a =>
        simp [updateSiteLive, upsertProject]
    · cases hsite : firstSuccess
        (fun a => (check_site_availability (env.http a)).1) 5 <;> trivial
    · cases hsite : firstSuccess
        (fun a => (check_site_availability (env.http a)).1) 5 with
      | none =>
        simp
      | some a =>
        simp

/-- Environment whose resolver first succeeds on the third attempt. -/
def c2EnvHit : DeployEnv :=
  ⟨fun _ => ⟨200, ["z1"]⟩, ⟨200, true, "r1", false⟩, fun _ => ⟨200, []⟩,
   fun i => if 2 ≤ i then some "1.2.3.4" else none, fun _ => .response 200, 10, 11, 12⟩

/-- Environment whose resolver and prober never succeed. -/
def c2EnvMiss : DeployEnv :=
  ⟨fun _ => ⟨200, ["z1"]⟩, ⟨200, true, "r1", false⟩, fun _ => ⟨200, []⟩,
   fun _ => none, fun _ => .netError, 10, 11, 12⟩

/-- Witness for C2: with first resolution success on attempt 3 the loop
stops after 3 attempts and persists `dns_propagated = true`; with a
resolver that never succeeds the flag stays `false`, the run still reports
success, and the availability step still probes. -/
theorem deploy_dns_monitoring_witness :
    (deploy_project c2EnvHit emptyStore "site1" "app.example.com"
      "up.example.net").dnsAttempts = 3 ∧
    ((deploy_project c2EnvHit emptyStore "site1" "app.example.com"
      "up.example.net").store "site1").map ProjectRow.dns_propagated = some true ∧
    ((deploy_project c2EnvMiss emptyStore "site1" "app.example.com"
      "up.example.net").store "site1").map ProjectRow.dns_propagated = some false ∧
    (deploy_project c2EnvMiss emptyStore "site1" "app.example.com"
      "up.example.net").ok = true ∧
    1 ≤ (deploy_project c2EnvMiss emptyStore "site1" "app.example.com"
      "up.example.net").siteAttempts := by
  have h1 := (deploy_dns_monitoring c2EnvHit emptyStore "site1" "app.example.com"
    "up.example.net" "z1" "r1" (by decide) (by decide)).1 3 (by omega) (by omega)
    (by decide)
    (fun j hj => by
      have hlt : ¬ 2 ≤ j := by omega
      simp [deployDnsProbe, check_dns_propagation, c2EnvHit, hlt])
  have h2 := (deploy_dns_monitoring c2EnvMiss emptyStore "site1" "app.example.com"
    "up.example.net" "z1" "r1" (by decide) (by decide)).2
    (fun i _ => by simp [deployDnsProbe, check_dns_propagation, c2EnvMiss])
  exact ⟨h1.1, h1.2, h2.1, h2.2.1, h2.2.2⟩

/-- The C4 scenario environment: the zone query answers `z1`, the record
creation is accepted with id `r1`, name resolution first succeeds on
attempt 3, the availability probe succeeds on attempt 1, and the three
clock reads are 10, 11, 12. -/
def c4Env : DeployEnv :=
  ⟨fun _ => ⟨200, ["z1"]⟩, ⟨200, true, "r1", false⟩, fun _ => ⟨200, []⟩,
   fun i => if 2 ≤ i then some "1.2.3.4" else none, fun _ => .response 200, 10, 11, 12⟩

/-- C4: the end-to-end deploy run of the C4 scenario reports success after
3 DNS attempts and 1 availability attempt, and the stored row ends with
`status = "live"`, `dns_propagated = true`, `site_live = true`,
`record_id = "r1"` and `zone_id = "z1"`. -/
theorem deploy_end_to_end_live :
    (deploy_project c4Env emptyStore "site1" "app.example.com"
      "upstream.example.net").ok = true ∧
    (deploy_project c4Env emptyStore "site1" "app.example.com"
      "upstream.example.net").dnsAttempts = 3 ∧
    (deploy_project c4Env emptyStore "site1" "app.example.com"
      "upstream.example.net").siteAttempts = 1 ∧
    (deploy_project c4Env emptyStore "site1" "app.example.com"
      "upstream.example.net").store "site1" =
      some ⟨"app.example.com", "upstream.example.net", some "r1", some "z1",
            "live", 10, 12, true, true⟩ := by
  decide

/-- C10: re-running deploy for a name already in the store replaces the
whole row at the persistence step — the fresh row carries the current
clock as `created_at` (the original creation timestamp is lost) and both
health flags reset to `false` — and the row left by the full run still has
`created_at` equal to the run's persist-time clock, whatever the old row
held. -/
theorem deploy_redeploy_overwrites_row (env : DeployEnv) (s : Store)
    (pn cd mu : String) (old : ProjectRow) (_hold : s pn = some old)
    (zid rid : String)
    (hz : get_zone_id env.zones (deployRootDomain cd) = some zid)
    (hr : create_cname_record env.createResp env.records cd = some rid) :
    upsertProject s pn cd mu rid zid env.t0 pn =
      some ⟨cd, mu, some rid, some zid, "deployed", env.t0, env.t0, false, false⟩ ∧
    ((deploy_project env s pn cd mu).store pn).map ProjectRow.created_at = some env.t0 := by
  constructor
  · simp [upsertProject]
  · unfold deploy_project
    rw [hz, hr]
    cases hdns : firstSuccess
        (fun i => check_dns_propagation (env.resolver i) (extract_manus_target mu)) 30 with
    | none =>
      cases hsite : firstSuccess
          (fun a => (check_site_availability (env.http a)).1) 5 with
      | none =>
        simp only [hdns, hsite]
        simp [upsertProject]
      | some a =>
        simp only [hdns, hsite]
        simp [updateSiteLive, upsertProject]
    | some k =>
      cases hsite : firstSuccess
          (fun a => (check_site_availability (env.http a)).1) 5 with
      | none =>
        simp only [hdns, hsite]
        simp [updateDnsPropagated, upsertProject]
      | some a =>
        simp only [hdns, hsite]
        simp [updateSiteLive, updateDnsPropagated, upsertProject]

/-- Environment for the C10 witness: record creation accepted, both
polling loops exhaust, persist-time clock 10. -/
def c10Env : DeployEnv :=
  ⟨fun _ => ⟨200, ["z1"]⟩, ⟨200, true, "r1", false⟩, fun _ => ⟨200, []⟩,
   fun _ => none, fun _ => .netError, 10, 11, 12⟩

/-- A store already holding a `p1` row with `created_at = 1` and both
health flags observed `true`, for the C10 witness. -/
def c10OldStore : Store :=
  fun n =>
    if n = "p1" then
      some ⟨"app.example.com", "old.example.net", some "r0", some "z0", "live", 1, 2, true, true⟩
    else none

/-- Witness for C10: redeploying `p1` over `c10OldStore` persists a row
whose `created_at` is the new clock value 10 with both flags reset, and
the full run also leaves `created_at = 10`. -/
theorem deploy_redeploy_overwrites_row_witness :
    upsertProject c10OldStore "p1" "app.example.com" "up.example.net" "r1" "z1"
      c10Env.t0 "p1" =
      some ⟨"app.example.com", "up.example.net", some "r1", some "z1",
            "deployed", 10, 10, false, false⟩ ∧
    ((deploy_project c10Env c10OldStore "p1" "app.example.com"
      "up.example.net").store "p1").map ProjectRow.created_at = some 10 := by
  exact deploy_redeploy_overwrites_row c10Env c10OldStore "p1" "app.example.com"
    "up.example.net"
    ⟨"app.example.com", "old.example.net", some "r0", some "z0", "live", 1, 2, true, true⟩
    (by decide) "z1" "r1" (by decide) (by decide)

end ManusToolkit
